import Mathlib

/-
Verification of the invocation-to-execution-unit materialization pipeline of
the k8s-job-operator repository (src/src/main.rs, src/src/types.rs).

The Rust code is shallowly embedded: pure builders become Lean functions,
kube API calls are threaded explicitly (the get result is a parameter, the
create primitive is a function over the set of already-existing job names),
and the two calls to the random UUID generator are passed in as explicit
fresh-identifier parameters.  serde_json values are modelled by an inductive
JSON tree with a total text serializer (serialization of a serde_json Value
to a string cannot fail, since its object keys are always strings).
-/

namespace Operator

/-- JSON payload tree, modelling serde_json Value (src/src/types.rs, the
kwargs field of InvokeRequest). -/
inductive JsonValue where
  | null : JsonValue
  | bool : Bool → JsonValue
  | num : Int → JsonValue
  | str : String → JsonValue
  | arr : List JsonValue → JsonValue
  | obj : List (String × JsonValue) → JsonValue

/-- One hexadecimal digit. -/
def hexDigit (n : Nat) : Char :=
  if n < 10 then Char.ofNat (48 + n) else Char.ofNat (87 + n)

/-- Four-hex-digit rendering used for JSON control-character escapes. -/
def hex4 (n : Nat) : String :=
  String.mk [hexDigit (n / 4096 % 16), hexDigit (n / 256 % 16),
             hexDigit (n / 16 % 16), hexDigit (n % 16)]

/-- JSON string-character escaping as performed by the serde_json encoder. -/
def escapeChar (c : Char) : String :=
  if c = '"' then "\\\""
  else if c = '\\' then "\\\\"
  else if c = '\n' then "\\n"
  else if c = '\r' then "\\r"
  else if c = '\t' then "\\t"
  else if c.toNat < 32 then "\\u" ++ hex4 c.toNat
  else String.singleton c

/-- JSON string escaping applied to every character. -/
def escapeString (s : String) : String :=
  String.join (s.data.map escapeChar)

mutual

/-- Text serialization of a JSON value, modelling serde_json to_string as
called at src/src/main.rs line 136. -/
def jsonToString : JsonValue → String
  | .null => "null"
  | .bool true => "true"
  | .bool false => "false"
  | .num n => toString n
  | .str s => "\"" ++ escapeString s ++ "\""
  | .arr xs => "[" ++ jsonArrToString xs ++ "]"
  | .obj fs => "\x7b" ++ jsonObjToString fs ++ "\x7d"

/-- Comma-separated serialization of a JSON array body. -/
def jsonArrToString : List JsonValue → String
  | [] => ""
  | [x] => jsonToString x
  | x :: xs => jsonToString x ++ "," ++ jsonArrToString xs

/-- Comma-separated serialization of a JSON object body. -/
def jsonObjToString : List (String × JsonValue) → String
  | [] => ""
  | [(k, v)] => "\"" ++ escapeString k ++ "\":" ++ jsonToString v
  | (k, v) :: fs =>
      "\"" ++ escapeString k ++ "\":" ++ jsonToString v ++ "," ++ jsonObjToString fs

end

/-- User-declared environment pair (types.rs TaskEnvVar). -/
structure TaskEnvVar where
  name : String
  value : String
deriving DecidableEq, Repr

/-- Optional cpu/memory quantity strings (types.rs ResourceList). -/
structure ResourceList where
  cpu : Option String
  memory : Option String
deriving DecidableEq, Repr

/-- Nested limits/requests pair (types.rs TaskResources). -/
structure TaskResources where
  limits : ResourceList
  requests : ResourceList
deriving DecidableEq, Repr

/-- Declarative task specification (types.rs TaskSpec). -/
structure TaskSpec where
  image : String
  image_pull_policy : String
  resources : TaskResources
  env : List TaskEnvVar
  handler : String
  timeout : Int
deriving DecidableEq, Repr

/-- A named Task custom resource; name models metadata.name as returned by
name_any(). -/
structure Task where
  name : String
  spec : TaskSpec
deriving DecidableEq, Repr

/-- Observed task status (types.rs TaskStatus); never written by the code
under verification. -/
structure TaskStatus where
  executions : Int
  last_execution : Option String
deriving DecidableEq, Repr

/-- Invocation request body (types.rs InvokeRequest). -/
structure InvokeRequest where
  kwargs : JsonValue
  request_id : Option String
  async_mode : Option Bool

/-- Invocation acknowledgement (types.rs InvokeResponse). -/
structure InvokeResponse where
  request_id : String
  job_name : String
  status : String
  «namespace» : String
  task_name : String
deriving DecidableEq, Repr

/-- Error kinds of main.rs OperatorError. -/
inductive OperatorError where
  | kubeError : String → OperatorError
  | serdeError : String → OperatorError
  | taskNotFound : String → OperatorError
  | configError : String → OperatorError
  | invalidRequest : String → OperatorError
deriving DecidableEq, Repr

/-- HTTP status assigned by OperatorError into_response (main.rs lines
49-66). -/
def statusCode : OperatorError → Nat
  | .kubeError _ => 500
  | .serdeError _ => 400
  | .taskNotFound _ => 404
  | .configError _ => 500
  | .invalidRequest _ => 400

/-- Discriminator for the TaskNotFound error kind. -/
def isTaskNotFound : OperatorError → Bool
  | .taskNotFound _ => true
  | _ => false

/-- Loaded configuration (main.rs OperatorConfig). -/
structure OperatorConfig where
  http_port : Nat
  default_namespace : String
deriving DecidableEq, Repr

/-- Rust u16 FromStr parsing as used for HTTP_PORT: an optional leading plus
sign, then one or more ASCII decimal digits, value at most 65535. -/
def parseU16 (s : String) : Option Nat :=
  let cs := match s.data with
    | '+' :: rest => rest
    | cs => cs
  if cs.isEmpty then none
  else if cs.all (fun c => c.isDigit) then
    let n := cs.foldl (fun acc c => acc * 10 + (c.toNat - 48)) 0
    if n ≤ 65535 then some n else none
  else none

/-- OperatorConfig from_env (main.rs lines 74-84); the two environment
variables HTTP_PORT and NAMESPACE are passed as optional strings. -/
def from_env (http_port_var namespace_var : Option String) :
    Except OperatorError OperatorConfig :=
  match parseU16 (http_port_var.getD "8080") with
  | some p => .ok ⟨p, namespace_var.getD "default"⟩
  | none => .error (.configError "Invalid HTTP_PORT")

/-- Container environment entry (k8s_openapi EnvVar, name and optional
value). -/
structure EnvVar where
  name : String
  value : Option String
deriving DecidableEq, Repr

/-- Lexicographic string order on character lists, the key order of a Rust
BTreeMap over byte-lexicographically ordered ASCII keys. -/
def strLtb : List Char → List Char → Bool
  | [], [] => false
  | [], _ :: _ => true
  | _ :: _, [] => false
  | x :: xs, y :: ys =>
      if x.toNat < y.toNat then true
      else if y.toNat < x.toNat then false
      else strLtb xs ys

/-- Sorted-insert into an association list ordered by key, modelling
BTreeMap insert (iteration over a BTreeMap yields keys in sorted order). -/
def btreeInsert : List (String × String) → String → String → List (String × String)
  | [], k, v => [(k, v)]
  | (k', v') :: rest, k, v =>
      if strLtb k.data k'.data then (k, v) :: (k', v') :: rest
      else if k = k' then (k, v) :: rest
      else (k', v') :: btreeInsert rest k v

/-- k8s ResourceRequirements: optional limits and requests quantity maps. -/
structure ResourceRequirements where
  limits : Option (List (String × String))
  requests : Option (List (String × String))
deriving DecidableEq, Repr

/-- k8s Container: the fields set by create_job_for_task (main.rs lines
186-193). -/
structure Container where
  name : String
  image : Option String
  image_pull_policy : Option String
  env : Option (List EnvVar)
  resources : Option ResourceRequirements
deriving DecidableEq, Repr

/-- k8s ObjectMeta: the fields set by create_job_for_task. -/
structure ObjectMeta where
  name : Option String
  «namespace» : Option String
  labels : Option (List (String × String))
deriving DecidableEq, Repr

/-- k8s PodSpec: the fields set by create_job_for_task (main.rs lines
214-219). -/
structure PodSpec where
  containers : List Container
  restart_policy : Option String
  active_deadline_seconds : Option Int
deriving DecidableEq, Repr

/-- k8s PodTemplateSpec. -/
structure PodTemplateSpec where
  metadata : Option ObjectMeta
  spec : Option PodSpec
deriving DecidableEq, Repr

/-- k8s JobSpec: the fields set by create_job_for_task (main.rs lines
208-224). -/
structure JobSpec where
  template : PodTemplateSpec
  backoff_limit : Option Int
  ttl_seconds_after_finished : Option Int
deriving DecidableEq, Repr

/-- k8s Job manifest. -/
structure Job where
  metadata : ObjectMeta
  spec : Option JobSpec
deriving DecidableEq, Repr

/-- Execution-unit name derivation (main.rs line 113): task name, hyphen,
Unix timestamp in seconds. -/
def job_name (task : Task) (ts : Int) : String :=
  task.name ++ "-" ++ toString ts

/-- Environment-variable construction (main.rs lines 118-148): the vec of
four fixed entries, then a loop pushing each user-declared env entry. -/
def env_vars (task : Task) (request : InvokeRequest) (request_id : String) :
    List EnvVar :=
  let base : List EnvVar :=
    [⟨"LAMBDA_HANDLER", some task.spec.handler⟩,
     ⟨"LAMBDA_TASK_NAME", some task.name⟩,
     ⟨"LAMBDA_REQUEST_ID", some request_id⟩,
     ⟨"LAMBDA_KWARGS", some (jsonToString request.kwargs)⟩]
  task.spec.env.foldl (fun acc e => acc ++ [⟨e.name, some e.value⟩]) base

/-- Resource-map construction for one ResourceList (main.rs lines 151-165):
conditional BTreeMap inserts for cpu and memory. -/
def buildResourceMap (r : ResourceList) : List (String × String) :=
  let m : List (String × String) := []
  let m := match r.cpu with
    | some c => btreeInsert m "cpu" c
    | none => m
  match r.memory with
  | some mem => btreeInsert m "memory" mem
  | none => m

/-- Resource-requirements construction (main.rs lines 167-183): None when
both maps are empty, otherwise each sub-map present only when nonempty. -/
def buildResources (res : TaskResources) : Option ResourceRequirements :=
  let limits := buildResourceMap res.limits
  let requests := buildResourceMap res.requests
  if limits.isEmpty && requests.isEmpty then none
  else some ⟨(if limits.isEmpty then none else some limits),
             (if requests.isEmpty then none else some requests)⟩

/-- Label-map construction (main.rs lines 196-199): BTreeMap inserts of app,
task and request-id. -/
def jobLabels (task : Task) (request_id : String) : List (String × String) :=
  btreeInsert
    (btreeInsert (btreeInsert [] "app" "lambda-task") "task" task.name)
    "request-id" request_id

/-- The pure manifest-building part of create_job_for_task (main.rs lines
108-226).  freshId is the value the UUID generator would return at line 111;
ts is the Unix timestamp at line 113. -/
def buildJob (task : Task) (request : InvokeRequest) (ns : String)
    (freshId : String) (ts : Int) : Job :=
  let request_id := request.request_id.getD freshId
  let container : Container :=
    ⟨"task", some task.spec.image, some task.spec.image_pull_policy,
     some (env_vars task request request_id),
     buildResources task.spec.resources⟩
  let labels := jobLabels task request_id
  ⟨⟨some (job_name task ts), some ns, some labels⟩,
   some ⟨⟨some ⟨none, none, some labels⟩,
          some ⟨[container], some "Never", some task.spec.timeout⟩⟩,
         some 0, some 3600⟩⟩

/-- Modelled from the spec: the external orchestrator create primitive
(kube Api create, main.rs line 229) is not part of this repository; per the
spec, creating an execution unit whose name already exists fails, and a
successful create records the new name. -/
def kubeCreate (existing : List String) (j : Job) :
    Except String (List String) :=
  match j.metadata.name with
  | some n =>
      if existing.contains n then .error ("AlreadyExists: jobs " ++ n)
      else .ok (existing ++ [n])
  | none => .error "missing name"

/-- create_job_for_task (main.rs lines 102-233): builds the manifest,
submits it to the orchestrator create primitive and returns the job name on
success.  The second component is the trace of create calls attempted. -/
def create_job_for_task (task : Task) (request : InvokeRequest)
    (ns freshId : String) (ts : Int) (existing : List String) :
    Except OperatorError String × List Job :=
  let job := buildJob task request ns freshId ts
  match kubeCreate existing job with
  | .error e => (.error (.kubeError e), [job])
  | .ok _ => (.ok (job_name task ts), [job])

/-- Modelled from the spec: the Task Definition Store get primitive
(kube Api get, external to this repository) returns the stored Task for the
pair (namespace, name), and an error when it is absent. -/
def apiGet (store : List ((String × String) × Task)) (ns nm : String) :
    Except String Task :=
  match store.lookup (ns, nm) with
  | some t => .ok t
  | none => .error ("tasks.lambda.example.com " ++ nm ++ " not found")

/-- get_task handler (main.rs lines 264-271): the question-mark operator
converts any kube error into OperatorError KubeError. -/
def get_task (getResult : Except String Task) : Except OperatorError Task :=
  match getResult with
  | .error e => .error (.kubeError e)
  | .ok t => .ok t

/-- invoke_task handler (main.rs lines 273-301).  getResult is the outcome
of the task lookup; fresh1 is the UUID the generator would return inside
create_job_for_task, fresh2 the one it would return at line 292.  The second
component is the trace of orchestrator create calls. -/
def invoke_task (getResult : Except String Task) (request : InvokeRequest)
    (ns task_name fresh1 fresh2 : String) (ts : Int)
    (existing : List String) :
    Except OperatorError InvokeResponse × List Job :=
  match getResult with
  | .error _ => (.error (.taskNotFound task_name), [])
  | .ok task =>
      match create_job_for_task task request ns fresh1 ts existing with
      | (.error e, calls) => (.error e, calls)
      | (.ok jn, calls) =>
          let request_id := request.request_id.getD fresh2
          (.ok ⟨request_id, jn, "accepted", ns, task_name⟩, calls)

/-- Reconciler action (kube runtime controller Action). -/
inductive Action where
  | requeue : Nat → Action
  | awaitChange : Action
deriving DecidableEq, Repr

/-- reconcile_task (main.rs lines 92-95): no state mutation, unconditional
requeue after 300 seconds.  The store of Task objects is threaded to make
the absence of writes explicit. -/
def reconcile_task (_task : Task) (store : List Task) :
    List Task × Except OperatorError Action :=
  (store, .ok (.requeue 300))

/-- error_policy (main.rs lines 97-100): fixed 60-second requeue. -/
def error_policy (_task : Task) (_e : OperatorError) : Action :=
  .requeue 60

/-- Environment lookup helper: the value of the first entry with the given
name. -/
def envValue (nm : String) (vars : List EnvVar) : Option (Option String) :=
  (vars.find? (fun v => v.name == nm)).map EnvVar.value

/-- The env list of the single container of a built Job manifest. -/
def containerEnv (j : Job) : List EnvVar :=
  match j.spec with
  | some js =>
      match js.template.spec with
      | some ps =>
          match ps.containers with
          | c :: _ => c.env.getD []
          | [] => []
      | none => []
  | none => []

/-- The resource requirements of the single container of a built Job. -/
def containerResources (j : Job) : Option ResourceRequirements :=
  match j.spec with
  | some js =>
      match js.template.spec with
      | some ps =>
          match ps.containers with
          | c :: _ => c.resources
          | [] => none
      | none => none
  | none => none

/-- The pod restart policy of a built Job. -/
def podRestartPolicy (j : Job) : Option String :=
  match j.spec with
  | some js =>
      match js.template.spec with
      | some ps => ps.restart_policy
      | none => none
  | none => none

/-- The pod active deadline of a built Job. -/
def podActiveDeadline (j : Job) : Option Int :=
  match j.spec with
  | some js =>
      match js.template.spec with
      | some ps => ps.active_deadline_seconds
      | none => none
  | none => none

/-- The backoff limit of a built Job. -/
def jobBackoffLimit (j : Job) : Option Int :=
  match j.spec with
  | some js => js.backoff_limit
  | none => none

/-- The time-to-live after completion of a built Job. -/
def jobTtl (j : Job) : Option Int :=
  match j.spec with
  | some js => js.ttl_seconds_after_finished
  | none => none

/-- The metadata labels of a built Job. -/
def jobLabelList (j : Job) : List (String × String) :=
  j.metadata.labels.getD []

/-- Label lookup on a built Job. -/
def labelValue (nm : String) (j : Job) : Option String :=
  (jobLabelList j).lookup nm

/-- The fields of a ResourceList that are present, with their values, as the
spec describes them (cpu first, then memory). -/
def presentFields (r : ResourceList) : List (String × String) :=
  (match r.cpu with | some c => [("cpu", c)] | none => []) ++
  (match r.memory with | some m => [("memory", m)] | none => [])

/-- Resource mapping as stated by the spec, for the refinement claim: no
object at all when every field is absent; otherwise exactly the present
fields, each sub-map omitted when entirely absent. -/
def resourcesPerSpec (res : TaskResources) : Option ResourceRequirements :=
  if presentFields res.limits = [] ∧ presentFields res.requests = [] then none
  else some ⟨(if presentFields res.limits = [] then none
              else some (presentFields res.limits)),
             (if presentFields res.requests = [] then none
              else some (presentFields res.requests))⟩

/-- A concrete sample task used by witnesses and counterexamples. -/
def sampleTask : Task :=
  ⟨"echo", ⟨"busybox", "IfNotPresent", ⟨⟨none, none⟩, ⟨none, none⟩⟩, [],
            "handler", 300⟩⟩

/-- A sample invocation request with no explicit request id. -/
def sampleReqNone : InvokeRequest := ⟨.null, none, none⟩

/-- A sample invocation request with an explicit request id. -/
def sampleReqWithId : InvokeRequest := ⟨.null, some "rid-1", none⟩

/-- Pushing translated entries one by one onto an accumulator, as the Rust
for-loop does, appends the translated list. -/
theorem env_push_eq (l : List TaskEnvVar) (acc : List EnvVar) :
    l.foldl (fun a e => a ++ [⟨e.name, some e.value⟩]) acc =
      acc ++ l.map (fun e => (⟨e.name, some e.value⟩ : EnvVar)) := by
  induction l generalizing acc with
  | nil => simp
  | cons x xs ih => simp [ih]

/-- The environment list is the four fixed entries followed by the
translated user-declared entries. -/
theorem env_vars_eq (task : Task) (request : InvokeRequest) (rid : String) :
    env_vars task request rid =
      [⟨"LAMBDA_HANDLER", some task.spec.handler⟩,
       ⟨"LAMBDA_TASK_NAME", some task.name⟩,
       ⟨"LAMBDA_REQUEST_ID", some rid⟩,
       ⟨"LAMBDA_KWARGS", some (jsonToString request.kwargs)⟩] ++
      task.spec.env.map (fun e => (⟨e.name, some e.value⟩ : EnvVar)) := by
  simp [env_vars, env_push_eq]

/-- The label map built from the three BTreeMap inserts, in sorted key
order. -/
theorem jobLabels_eq (task : Task) (rid : String) :
    jobLabels task rid =
      [("app", "lambda-task"), ("request-id", rid), ("task", task.name)] := rfl

/-- Claim C2: for every Task and Invocation Request, the built container
carries exactly 4 + len(task.env) environment entries: the four fixed
entries first, in the fixed order handler, task name, resolved request id,
serialized kwargs, then the user-declared entries in declaration order with
no deduplication. -/
theorem env_entries_shape (task : Task) (request : InvokeRequest)
    (ns f1 : String) (ts : Int) :
    containerEnv (buildJob task request ns f1 ts) =
      [⟨"LAMBDA_HANDLER", some task.spec.handler⟩,
       ⟨"LAMBDA_TASK_NAME", some task.name⟩,
       ⟨"LAMBDA_REQUEST_ID", some (request.request_id.getD f1)⟩,
       ⟨"LAMBDA_KWARGS", some (jsonToString request.kwargs)⟩] ++
      task.spec.env.map (fun e => (⟨e.name, some e.value⟩ : EnvVar)) ∧
    (containerEnv (buildJob task request ns f1 ts)).length =
      4 + task.spec.env.length := by
  have hc : containerEnv (buildJob task request ns f1 ts) =
      env_vars task request (request.request_id.getD f1) := rfl
  refine ⟨by rw [hc, env_vars_eq], ?_⟩
  rw [hc, env_vars_eq]
  simp only [List.length_append, List.length_map, List.length_cons,
    List.length_nil]

/-- Claim C5: every built manifest sets restartPolicy Never, backoffLimit 0,
activeDeadlineSeconds equal to the task timeout, ttlSecondsAfterFinished
3600, and exactly the three labels: application marker, task name and
resolved request id. -/
theorem job_policy_and_labels (task : Task) (request : InvokeRequest)
    (ns f1 : String) (ts : Int) :
    podRestartPolicy (buildJob task request ns f1 ts) = some "Never" ∧
    jobBackoffLimit (buildJob task request ns f1 ts) = some 0 ∧
    podActiveDeadline (buildJob task request ns f1 ts) = some task.spec.timeout ∧
    jobTtl (buildJob task request ns f1 ts) = some 3600 ∧
    jobLabelList (buildJob task request ns f1 ts) =
      [("app", "lambda-task"),
       ("request-id", request.request_id.getD f1),
       ("task", task.name)] :=
  ⟨rfl, rfl, rfl, rfl, rfl⟩

/-- Claim C3: the built container has no resource-requirements object when
all four quantity fields are absent, and otherwise exactly the present
fields unchanged, with each sub-map omitted when entirely absent — stated
as agreement with the spec-side mapping. -/
theorem resource_mapping_exact (task : Task) (request : InvokeRequest)
    (ns f1 : String) (ts : Int) :
    containerResources (buildJob task request ns f1 ts) =
      resourcesPerSpec task.spec.resources := by
  rcases task with ⟨nm, img, pull, ⟨⟨lc, lm⟩, ⟨rc, rm⟩⟩, env, hd, tmo⟩
  rcases lc with _ | c1 <;> rcases lm with _ | m1 <;>
    rcases rc with _ | c2 <;> rcases rm with _ | m2 <;> rfl

/-- Claim C4: the execution-unit name is the task name, a hyphen and the
Unix timestamp in seconds; a second submission for the same task in the
same second derives the identical name and fails at the orchestrator create
primitive, with the error surfaced unhandled after a single create
attempt. -/
theorem job_name_same_second_collision (task : Task)
    (req1 req2 : InvokeRequest) (ns f1 g1 : String) (ts : Int) :
    job_name task ts = task.name ++ "-" ++ toString ts ∧
    (create_job_for_task task req1 ns f1 ts []).1 = .ok (job_name task ts) ∧
    (create_job_for_task task req2 ns g1 ts [job_name task ts]).1 =
      .error (.kubeError ("AlreadyExists: jobs " ++ job_name task ts)) ∧
    ((create_job_for_task task req2 ns g1 ts [job_name task ts]).2).length = 1 := by
  refine ⟨rfl, ?_, ?_, ?_⟩
  · simp [create_job_for_task, kubeCreate, buildJob]
  · simp [create_job_for_task, kubeCreate, buildJob]
  · simp [create_job_for_task, kubeCreate, buildJob]

/-- Claim C6: invoking a task absent from the store fails with TaskNotFound
(HTTP 404) and the orchestrator create primitive is never called. -/
theorem invoke_absent_task_no_create (store : List ((String × String) × Task))
    (ns nm : String) (h : store.lookup (ns, nm) = none)
    (request : InvokeRequest) (f1 f2 : String) (ts : Int)
    (existing : List String) :
    invoke_task (apiGet store ns nm) request ns nm f1 f2 ts existing =
      (.error (.taskNotFound nm), []) ∧
    statusCode (.taskNotFound nm) = 404 := by
  refine ⟨?_, rfl⟩
  simp [invoke_task, apiGet, h]

/-- Witness for claim C6 at the empty store. -/
theorem invoke_absent_task_no_create_witness :
    invoke_task (apiGet [] "default" "missing") sampleReqNone "default"
        "missing" "u1" "u2" 0 [] =
      (.error (.taskNotFound "missing"), []) :=
  (invoke_absent_task_no_create [] "default" "missing" rfl sampleReqNone
    "u1" "u2" 0 []).1

/-- Claim C7 counterexample: getTask on an absent task returns a KubeError
carried to HTTP 500, not TaskNotFound with HTTP 404. -/
theorem get_task_absent_counterexample :
    get_task (apiGet [] "ns1" "echo") =
      .error (.kubeError "tasks.lambda.example.com echo not found") ∧
    statusCode (.kubeError "tasks.lambda.example.com echo not found") = 500 ∧
    isTaskNotFound (.kubeError "tasks.lambda.example.com echo not found") = false :=
  ⟨rfl, rfl, rfl⟩

/-- Claim C7 (amended): getTask returns the full Task when it exists; when
it is absent the lookup error is converted to KubeError, reported with HTTP
status 500. -/
theorem get_task_amended (store : List ((String × String) × Task))
    (ns nm : String) :
    (∀ t, store.lookup (ns, nm) = some t →
      get_task (apiGet store ns nm) = .ok t) ∧
    (store.lookup (ns, nm) = none →
      get_task (apiGet store ns nm) =
        .error (.kubeError ("tasks.lambda.example.com " ++ nm ++ " not found")) ∧
      statusCode
        (.kubeError ("tasks.lambda.example.com " ++ nm ++ " not found")) = 500) := by
  constructor
  · intro t ht
    simp [get_task, apiGet, ht]
  · intro hn
    exact ⟨by simp [get_task, apiGet, hn], rfl⟩

/-- Witness for the amended claim C7: a present task is returned whole, an
absent one yields the 500-mapped KubeError. -/
theorem get_task_amended_witness :
    get_task (apiGet [(("ns1", "echo"), sampleTask)] "ns1" "echo") =
      .ok sampleTask ∧
    get_task (apiGet [] "ns1" "missing") =
      .error (.kubeError "tasks.lambda.example.com missing not found") :=
  ⟨(get_task_amended [(("ns1", "echo"), sampleTask)] "ns1" "echo").1
      sampleTask rfl,
   ((get_task_amended [] "ns1" "missing").2 rfl).1⟩

/-- Claim C8: reconcile mutates nothing and always requeues after 300
seconds; the error policy always requeues after 60 seconds; neither path
produces anything but a requeue. -/
theorem reconcile_requeue_only (task : Task) (store : List Task)
    (e : OperatorError) :
    reconcile_task task store = (store, .ok (.requeue 300)) ∧
    error_policy task e = .requeue 60 :=
  ⟨rfl, rfl⟩

/-- Claim C9: port defaults to 8080 when unset, namespace to default when
unset, and an unparseable port value fails with ConfigError leaving no
configuration behind. -/
theorem config_defaults_and_invalid_port (ns pv : Option String) (v : String)
    (hv : parseU16 v = none) :
    (∃ cfg, from_env none ns = .ok cfg ∧ cfg.http_port = 8080 ∧
      cfg.default_namespace = ns.getD "default") ∧
    (∀ cfg, from_env pv none = .ok cfg → cfg.default_namespace = "default") ∧
    from_env (some v) ns = .error (.configError "Invalid HTTP_PORT") := by
  refine ⟨⟨⟨8080, ns.getD "default"⟩, rfl, rfl, rfl⟩, ?_, ?_⟩
  · intro cfg hcfg
    unfold from_env at hcfg
    cases hp : parseU16 ((pv).getD "8080") with
    | none => rw [hp] at hcfg; exact absurd hcfg (by simp)
    | some p =>
        rw [hp] at hcfg
        cases hcfg
        rfl
  · unfold from_env
    rw [show (some v).getD "8080" = v from rfl, hv]

/-- Witness for claim C9 at the unparseable port value abc. -/
theorem config_invalid_port_witness :
    parseU16 "abc" = none ∧
    from_env (some "abc") (some "ns1") =
      .error (.configError "Invalid HTTP_PORT") :=
  ⟨rfl, (config_defaults_and_invalid_port (some "ns1") none "abc" rfl).2.2⟩

/-- Claim C10: any failure of the task lookup during invoke, whatever its
cause, is reported as TaskNotFound with HTTP 404, never as a 500 kube
error. -/
theorem invoke_lookup_error_to_not_found (e : String)
    (request : InvokeRequest) (ns nm f1 f2 : String) (ts : Int)
    (existing : List String) :
    invoke_task (.error e) request ns nm f1 f2 ts existing =
      (.error (.taskNotFound nm), []) ∧
    statusCode (.taskNotFound nm) = 404 ∧
    isTaskNotFound (.taskNotFound nm) = true :=
  ⟨rfl, rfl, rfl⟩

/-- Claim C1 counterexample: with request_id absent and distinct fresh
identifiers id-A and id-B, the manifest env entry and label carry id-A
while the returned response carries id-B. -/
theorem request_id_inconsistency_counterexample :
    (invoke_task (.ok sampleTask) sampleReqNone "ns1" "echo" "id-A" "id-B"
        100 []).1 =
      .ok ⟨"id-B", "echo-100", "accepted", "ns1", "echo"⟩ ∧
    ((invoke_task (.ok sampleTask) sampleReqNone "ns1" "echo" "id-A" "id-B"
        100 []).2).map
        (fun j => envValue "LAMBDA_REQUEST_ID" (containerEnv j)) =
      [some (some "id-A")] ∧
    ((invoke_task (.ok sampleTask) sampleReqNone "ns1" "echo" "id-A" "id-B"
        100 []).2).map (fun j => labelValue "request-id" j) =
      [some "id-A"] ∧
    "id-A" ≠ "id-B" := by
  refine ⟨rfl, rfl, rfl, by decide⟩

/-- Claim C1 (amended): the built manifest env entry and request-id label
always agree on the resolved id (the request id when present, else the
first fresh identifier); the response carries the request id when present
(so all three then agree) but an independently generated second fresh
identifier when the request id is absent. -/
theorem request_id_amended (task : Task) (request : InvokeRequest)
    (ns f1 f2 : String) (ts : Int) (existing : List String) :
    envValue "LAMBDA_REQUEST_ID"
        (containerEnv (buildJob task request ns f1 ts)) =
      some (some (request.request_id.getD f1)) ∧
    labelValue "request-id" (buildJob task request ns f1 ts) =
      some (request.request_id.getD f1) ∧
    (∀ resp calls,
      invoke_task (.ok task) request ns task.name f1 f2 ts existing =
        (.ok resp, calls) →
      resp.request_id = request.request_id.getD f2) ∧
    (∀ r, request.request_id = some r →
      request.request_id.getD f1 = r ∧ request.request_id.getD f2 = r) := by
  refine ⟨?_, rfl, ?_, ?_⟩
  · rw [show containerEnv (buildJob task request ns f1 ts) =
          env_vars task request (request.request_id.getD f1) from rfl,
        env_vars_eq]
    rfl
  · intro resp calls hi
    rcases hc : create_job_for_task task request ns f1 ts existing with ⟨cr, tr⟩
    simp only [invoke_task, hc] at hi
    cases cr with
    | error e => simp at hi
    | ok jn =>
        simp only [Prod.mk.injEq, Except.ok.injEq] at hi
        obtain ⟨h1, -⟩ := hi
        rw [← h1]
  · intro r hr
    rw [hr]
    exact ⟨rfl, rfl⟩

/-- Witness for the amended claim C1: a concrete successful invocation with
an explicit request id returns that id. -/
theorem request_id_amended_witness :
    (InvokeResponse.mk "rid-1" "echo-5" "accepted" "ns1" "echo").request_id =
      "rid-1" :=
  (request_id_amended sampleTask sampleReqWithId "ns1" "A" "B" 5 []).2.2.1
    ⟨"rid-1", "echo-5", "accepted", "ns1", "echo"⟩
    [buildJob sampleTask sampleReqWithId "ns1" "A" 5] rfl

end Operator
